import Mathlib

/-!
Verification of the particle simulation core (`src/components/ParticleCanvas.tsx`
and `src/types.ts`): the `Particle` class (constructor and per-frame `update`)
together with the force-field computation driven by the hand/pointer signal.

Modelling choices:
* JavaScript numbers are modelled as real numbers (`ℝ`).  The one place where
  IEEE semantics diverges from real arithmetic in the core is the division
  `dx / distance` when `distance = 0` (JS yields `0/0 = NaN`, which then
  contaminates the velocity).  We make that case explicit: the field
  computation returns `Option (ℝ × ℝ)` and yields `none` exactly when the
  source would produce NaN.  Everywhere else the computation is total and
  returns `some`.
* `Math.random()` calls are modelled by explicit real parameters, each assumed
  in `[0,1)` where a claim needs it (the spec's own design note asks for an
  injected random source).
* JS array indexing out of bounds yields `undefined`; we model the particle's
  `color` as `Option String`, with `List.get?` reproducing that behaviour.
-/

open Classical

/-- The `InteractionMode` enum from `src/types.ts`. -/
inductive InteractionMode : Type
  | repel
  | attract
  | trail
deriving DecidableEq, Repr

/-- The `ParticleConfig` record from `src/types.ts`. -/
structure ParticleConfig : Type where
  gravity : ℝ
  friction : ℝ
  speed : ℝ
  particleCount : ℕ
  interactionRadius : ℝ
  interactionForce : ℝ
  interactionMode : InteractionMode
  colors : List String
  minSize : ℝ
  maxSize : ℝ
  fadeRate : ℝ

/-- The gesture carried by a detected hand: `'open' | 'closed'`. -/
inductive Gesture : Type
  | isOpen
  | isClosed
deriving DecidableEq, Repr

/-- The `HandPosition` record from `src/types.ts`; `gesture` is the optional field. -/
structure HandPosition : Type where
  x : ℝ
  y : ℝ
  detected : Bool
  gesture : Option Gesture

/-- The `Particle` class fields (`ParticleCanvas.tsx`, lines 11–20).
`color` is `Option String`: indexing an empty palette in JS yields
`undefined`, which we model as `none`. -/
structure Particle : Type where
  x : ℝ
  y : ℝ
  vx : ℝ
  vy : ℝ
  size : ℝ
  color : Option String
  life : ℝ
  baseX : ℝ
  baseY : ℝ

attribute [ext] Particle

/-- The gesture-override decision (`update`, lines 47–58): resolve the
effective `(mode, radius, force)` from the config defaults and the gesture. -/
def effectiveParams (config : ParticleConfig) (g : Option Gesture) :
    InteractionMode × ℝ × ℝ :=
  match g with
  | some Gesture.isClosed =>
      (InteractionMode.attract, config.interactionRadius * 1.2,
        config.interactionForce * 1.5)
  | some Gesture.isOpen =>
      (InteractionMode.repel, config.interactionRadius,
        config.interactionForce * 1.2)
  | none =>
      (config.interactionMode, config.interactionRadius,
        config.interactionForce)

/-- The force computation inside `distance < currentRadius` (`update`,
lines 60–79), as a function of the resolved mode/radius/force and the offset
`(dx, dy)` from particle to pointer.  Result `none` models the IEEE outcome
of the source at `distance = 0` inside the radius: `dx / distance` is `0/0`,
i.e. NaN, which the source then adds into the velocity. -/
noncomputable def fieldDelta (mode : InteractionMode) (radius force dx dy : ℝ) :
    Option (ℝ × ℝ) :=
  let distance := Real.sqrt (dx * dx + dy * dy)
  if distance < radius then
    if distance = 0 then
      none
    else
      let forceDirectionX := dx / distance
      let forceDirectionY := dy / distance
      let power := (radius - distance) / radius * force
      match mode with
      | InteractionMode.repel =>
          some (-(forceDirectionX * power), -(forceDirectionY * power))
      | InteractionMode.attract =>
          some (forceDirectionX * power, forceDirectionY * power)
      | InteractionMode.trail =>
          some (forceDirectionX * power * 0.1, forceDirectionY * power * 0.1)
  else
    some (0, 0)

/-- The Force Field Resolver: the hand-interaction block of `update`
(lines 41–80) as a pure function of particle position, canvas size, hand
signal and config, returning the velocity delta (`none` = NaN, see
`fieldDelta`). -/
noncomputable def forceFieldResolver (px py width height : ℝ)
    (hand : HandPosition) (config : ParticleConfig) : Option (ℝ × ℝ) :=
  if hand.detected then
    let dx := hand.x * width - px
    let dy := hand.y * height - py
    let p := effectiveParams config hand.gesture
    fieldDelta p.1 p.2.1 p.2.2 dx dy
  else
    some (0, 0)

/-- The velocity produced by the first half of `update` (lines 35–80):
gravity, friction, then the force-field delta.  `none` propagates the NaN
case of `forceFieldResolver`. -/
noncomputable def stepVelocity (p : Particle) (width height : ℝ)
    (config : ParticleConfig) (hand : HandPosition) : Option (ℝ × ℝ) :=
  let vy1 := p.vy + config.gravity
  let vx1 := p.vx * config.friction
  let vy2 := vy1 * config.friction
  match forceFieldResolver p.x p.y width height hand config with
  | none => none
  | some d => some (vx1 + d.1, vy2 + d.2)

/-- One call of `Particle.update` (lines 34–102).  The four reals stand for
the `Math.random()` draws consumed on the respawn path, in source order. -/
noncomputable def Particle.update (p : Particle) (width height : ℝ)
    (config : ParticleConfig) (hand : HandPosition) (r1 r2 r3 r4 : ℝ) :
    Option Particle :=
  match stepVelocity p width height config hand with
  | none => none
  | some v =>
    let x1 := p.x + v.1
    let y1 := p.y + v.2
    if x1 < 0 ∨ x1 > width ∨ y1 < 0 ∨ y1 > height ∨ p.life ≤ 0 then
      if config.interactionMode = InteractionMode.trail ∧ hand.detected then
        some { p with x := hand.x * width + (r1 - 0.5) * 20,
                      y := hand.y * height + (r2 - 0.5) * 20,
                      vx := (r3 - 0.5) * config.speed * 2,
                      vy := (r4 - 0.5) * config.speed * 2,
                      life := 1 }
      else
        some { p with x := r1 * width,
                      y := r2 * height,
                      vx := (r3 - 0.5) * config.speed,
                      vy := (r4 - 0.5) * config.speed,
                      life := 1 }
    else
      some { p with x := x1, y := y1, vx := v.1, vy := v.2 }

/-- The `Particle` constructor (lines 22–32).  The six reals stand for the
`Math.random()` draws, in source order: position x, position y, vx, vy,
size, color index. -/
noncomputable def Particle.init (width height : ℝ) (config : ParticleConfig)
    (r1 r2 r3 r4 r5 r6 : ℝ) : Particle :=
  let x := r1 * width
  let y := r2 * height
  { x := x, y := y,
    vx := (r3 - 0.5) * config.speed,
    vy := (r4 - 0.5) * config.speed,
    size := r5 * (config.maxSize - config.minSize) + config.minSize,
    color := config.colors.get? (Nat.floor (r6 * (config.colors.length : ℝ))),
    life := 1,
    baseX := x, baseY := y }

/-- Iterated frames: apply `Particle.update` once per entry of `rs` (the
random draws of that frame), with a fixed config and hand signal. -/
noncomputable def updateIter (width height : ℝ) (config : ParticleConfig)
    (hand : HandPosition) : List (ℝ × ℝ × ℝ × ℝ) → Particle → Option Particle
  | [], p => some p
  | r :: rs, p =>
      match p.update width height config hand r.1 r.2.1 r.2.2.1 r.2.2.2 with
      | none => none
      | some q => updateIter width height config hand rs q

/-- A concrete configuration used to instantiate witnesses. -/
def cfgBase : ParticleConfig :=
  { gravity := 0, friction := 1, speed := 1, particleCount := 10,
    interactionRadius := 100, interactionForce := 2,
    interactionMode := InteractionMode.repel,
    colors := ["white"], minSize := 1, maxSize := 3, fadeRate := 0.05 }

/-- C3: for a detected pointer, the effective mode/force/radius are:
gesture Closed → Attract, force × 1.5, radius × 1.2; gesture Open → Repel,
force × 1.2, radius unchanged; gesture absent → config defaults unchanged. -/
theorem effectiveParams_gesture_cases (config : ParticleConfig) :
    effectiveParams config (some Gesture.isClosed) =
      (InteractionMode.attract, config.interactionRadius * 1.2,
        config.interactionForce * 1.5) ∧
    effectiveParams config (some Gesture.isOpen) =
      (InteractionMode.repel, config.interactionRadius,
        config.interactionForce * 1.2) ∧
    effectiveParams config none =
      (config.interactionMode, config.interactionRadius,
        config.interactionForce) :=
  ⟨rfl, rfl, rfl⟩

/-- C4: when the hand is not detected, the Force Field Resolver contributes
the zero vector, for every particle position, canvas size, gesture value and
config. -/
theorem resolver_not_detected (px py width height : ℝ) (hand : HandPosition)
    (config : ParticleConfig) (h : hand.detected = false) :
    forceFieldResolver px py width height hand config = some (0, 0) := by
  simp [forceFieldResolver, h]

/-- Witness for C4 at a concrete input. -/
theorem resolver_not_detected_witness :
    forceFieldResolver 3 4 100 100
      { x := 1/2, y := 1/2, detected := false, gesture := some Gesture.isOpen }
      cfgBase = some (0, 0) :=
  resolver_not_detected 3 4 100 100 _ cfgBase rfl

/-- C5: at identical radius, force and offset, the Repel delta is the exact
componentwise negation of the Attract delta. -/
theorem repel_attract_negation (radius force dx dy : ℝ) :
    fieldDelta InteractionMode.repel radius force dx dy =
      Option.map (fun v : ℝ × ℝ => (-v.1, -v.2))
        (fieldDelta InteractionMode.attract radius force dx dy) := by
  unfold fieldDelta
  by_cases h1 : Real.sqrt (dx * dx + dy * dy) < radius
  · by_cases h2 : Real.sqrt (dx * dx + dy * dy) = 0
    · rw [h2] at h1
      simp [h1, h2]
    · simp [h1, h2]
  · simp [h1]

/-- Magnitude of a vector that is a scalar multiple `k` of the unit vector
`(dx/d, dy/d)`, where `d` is the length of `(dx, dy)` and `d > 0`. -/
theorem mag_of_unit_scaled (dx dy d k a b : ℝ)
    (hd : d = Real.sqrt (dx * dx + dy * dy)) (hd0 : 0 < d)
    (ha : a = k * (dx / d)) (hb : b = k * (dy / d)) :
    Real.sqrt (a * a + b * b) = |k| := by
  have hdne : d ≠ 0 := ne_of_gt hd0
  have hsq : d * d = dx * dx + dy * dy := by
    rw [hd]
    exact Real.mul_self_sqrt (add_nonneg (mul_self_nonneg dx) (mul_self_nonneg dy))
  have key : a * a + b * b = k ^ 2 := by
    subst ha hb
    field_simp
    nlinarith [hsq]
  rw [key, Real.sqrt_sq_eq_abs]

/-- C1: for a detected hand, with `(dx, dy)` the offset from particle to
pointer pixel position, `d` its length, and `(mode, radius, force)` the
effective parameters, the resolver's delta at `0 < d < radius` is the unit
direction times `power = ((radius − d) / radius) × force`, negated for
Repel, scaled by 0.1 for Trail, and its magnitude is `power` (times 0.1 in
Trail mode); at `d ≥ radius` the delta is the zero vector. -/
theorem resolver_force_formula (px py width height dx dy d radius force : ℝ)
    (mode : InteractionMode) (hand : HandPosition) (config : ParticleConfig)
    (hdet : hand.detected = true)
    (hdx : dx = hand.x * width - px) (hdy : dy = hand.y * height - py)
    (hd : d = Real.sqrt (dx * dx + dy * dy))
    (hp : effectiveParams config hand.gesture = (mode, radius, force))
    (hforce : 0 ≤ force) :
    (0 < d → d < radius →
      (mode = InteractionMode.repel →
        forceFieldResolver px py width height hand config =
          some (-(dx / d * ((radius - d) / radius * force)),
                -(dy / d * ((radius - d) / radius * force))) ∧
        Real.sqrt
          (-(dx / d * ((radius - d) / radius * force)) *
             -(dx / d * ((radius - d) / radius * force)) +
           -(dy / d * ((radius - d) / radius * force)) *
             -(dy / d * ((radius - d) / radius * force))) =
          (radius - d) / radius * force) ∧
      (mode = InteractionMode.attract →
        forceFieldResolver px py width height hand config =
          some (dx / d * ((radius - d) / radius * force),
                dy / d * ((radius - d) / radius * force)) ∧
        Real.sqrt
          (dx / d * ((radius - d) / radius * force) *
             (dx / d * ((radius - d) / radius * force)) +
           dy / d * ((radius - d) / radius * force) *
             (dy / d * ((radius - d) / radius * force))) =
          (radius - d) / radius * force) ∧
      (mode = InteractionMode.trail →
        forceFieldResolver px py width height hand config =
          some (dx / d * ((radius - d) / radius * force) * 0.1,
                dy / d * ((radius - d) / radius * force) * 0.1) ∧
        Real.sqrt
          (dx / d * ((radius - d) / radius * force) * 0.1 *
             (dx / d * ((radius - d) / radius * force) * 0.1) +
           dy / d * ((radius - d) / radius * force) * 0.1 *
             (dy / d * ((radius - d) / radius * force) * 0.1)) =
          (radius - d) / radius * force * 0.1)) ∧
    (radius ≤ d →
      forceFieldResolver px py width height hand config = some (0, 0)) := by
  subst hdx hdy
  have hres : forceFieldResolver px py width height hand config =
      fieldDelta mode radius force (hand.x * width - px) (hand.y * height - py) := by
    unfold forceFieldResolver
    rw [hdet, hp]
    simp
  constructor
  · intro hd0 hlt
    have hdpos : (0:ℝ) < Real.sqrt ((hand.x * width - px) * (hand.x * width - px) +
        (hand.y * height - py) * (hand.y * height - py)) := by rw [← hd]; exact hd0
    have hne : Real.sqrt ((hand.x * width - px) * (hand.x * width - px) +
        (hand.y * height - py) * (hand.y * height - py)) ≠ 0 := ne_of_gt hdpos
    have hlt' : Real.sqrt ((hand.x * width - px) * (hand.x * width - px) +
        (hand.y * height - py) * (hand.y * height - py)) < radius := by
      rw [← hd]; exact hlt
    have hRpos : 0 < radius := lt_trans hd0 hlt
    have hpow : 0 ≤ (radius - d) / radius * force :=
      mul_nonneg (div_nonneg (by linarith) (le_of_lt hRpos)) hforce
    have hdelta : ∀ m, fieldDelta m radius force (hand.x * width - px)
        (hand.y * height - py) =
        match m with
        | InteractionMode.repel =>
            some (-((hand.x * width - px) / d * ((radius - d) / radius * force)),
                  -((hand.y * height - py) / d * ((radius - d) / radius * force)))
        | InteractionMode.attract =>
            some ((hand.x * width - px) / d * ((radius - d) / radius * force),
                  (hand.y * height - py) / d * ((radius - d) / radius * force))
        | InteractionMode.trail =>
            some ((hand.x * width - px) / d * ((radius - d) / radius * force) * 0.1,
                  (hand.y * height - py) / d * ((radius - d) / radius * force) * 0.1) := by
      intro m
      unfold fieldDelta
      rw [if_pos hlt', if_neg hne, ← hd]
    refine ⟨?_, ?_, ?_⟩
    · intro hm
      subst hm
      refine ⟨by rw [hres, hdelta], ?_⟩
      rw [mag_of_unit_scaled (hand.x * width - px) (hand.y * height - py) d
          (-((radius - d) / radius * force)) _ _ hd hd0 (by ring) (by ring)]
      rw [abs_neg, abs_of_nonneg hpow]
    · intro hm
      subst hm
      refine ⟨by rw [hres, hdelta], ?_⟩
      rw [mag_of_unit_scaled (hand.x * width - px) (hand.y * height - py) d
          ((radius - d) / radius * force) _ _ hd hd0 (by ring) (by ring)]
      rw [abs_of_nonneg hpow]
    · intro hm
      subst hm
      refine ⟨by rw [hres, hdelta], ?_⟩
      rw [mag_of_unit_scaled (hand.x * width - px) (hand.y * height - py) d
          ((radius - d) / radius * force * 0.1) _ _ hd hd0 (by ring) (by ring)]
      rw [abs_of_nonneg (by positivity)]
  · intro hge
    rw [hres]
    unfold fieldDelta
    rw [if_neg (not_lt.mpr (by rw [← hd]; exact hge))]

/-- Witness for C1: the spec scenario.  Config `interactionForce = 2`,
`interactionRadius = 100`, gesture Open (→ Repel, force 2.4), canvas
200 × 100, pointer pixel position (100, 0), particle at (50, 0), distance
50: the delta is `(-1.2, 0)` — magnitude 1.2, directed away from the
pointer. -/
theorem resolver_force_formula_witness :
    forceFieldResolver 50 0 200 100
      { x := 1/2, y := 0, detected := true, gesture := some Gesture.isOpen }
      cfgBase = some (-(6/5), 0) := by
  have h := resolver_force_formula 50 0 200 100 50 0 50 100 (12/5)
    InteractionMode.repel
    { x := 1/2, y := 0, detected := true, gesture := some Gesture.isOpen }
    cfgBase rfl (by norm_num) (by norm_num)
    (by rw [show ((50:ℝ) * 50 + 0 * 0) = 50 ^ 2 by norm_num,
        Real.sqrt_sq (by norm_num : (0:ℝ) ≤ 50)])
    (by norm_num [effectiveParams, cfgBase, Prod.ext_iff]) (by norm_num)
  have h2 := (h.1 (by norm_num) (by norm_num)).1 rfl
  rw [h2.1]
  norm_num

/-- C2 evaluated at the failing input: with the particle exactly at the
pointer's pixel position (distance 0) inside a positive radius, the source
has no zero-distance guard — it computes `dx / distance = 0 / 0 = NaN` and
adds it into the velocity.  The model returns `none` (the NaN marker), not
the zero vector the claim requires. -/
theorem resolver_zero_distance_nan :
    forceFieldResolver 50 50 100 100
      { x := 1/2, y := 1/2, detected := true, gesture := none }
      cfgBase = none := by
  unfold forceFieldResolver fieldDelta effectiveParams
  norm_num [cfgBase, Real.sqrt_zero]

/-- A hand signal with `detected = false`, for witnesses. -/
noncomputable def handOff : HandPosition :=
  { x := 1/2, y := 1/2, detected := false, gesture := none }

/-- A concrete particle used to instantiate witnesses. -/
noncomputable def pW : Particle :=
  { x := 50, y := 50, vx := 3, vy := 4, size := 3, color := some "white",
    life := 1, baseX := 50, baseY := 50 }

/-- The state of `pW` after one update under `cfgBase` with no hand. -/
noncomputable def pW' : Particle :=
  { x := 53, y := 54, vx := 3, vy := 4, size := 3, color := some "white",
    life := 1, baseX := 50, baseY := 50 }

/-- Concrete evaluation: one update of `pW` on a 100 × 100 canvas with no
hand detected moves it by its velocity. -/
theorem pW_update_eval :
    Particle.update pW 100 100 cfgBase handOff 0 0 0 0 = some pW' := by
  unfold Particle.update stepVelocity forceFieldResolver
  norm_num [cfgBase, handOff, pW, pW']

/-- C7: a single `update` call never writes `size`, `color`, `baseX` or
`baseY`, on any path including respawn: whenever it returns a particle,
those fields are unchanged. -/
theorem update_preserves_size_color (p p' : Particle) (width height : ℝ)
    (config : ParticleConfig) (hand : HandPosition) (r1 r2 r3 r4 : ℝ)
    (h : p.update width height config hand r1 r2 r3 r4 = some p') :
    p'.size = p.size ∧ p'.color = p.color ∧
    p'.baseX = p.baseX ∧ p'.baseY = p.baseY := by
  unfold Particle.update at h
  cases hv : stepVelocity p width height config hand with
  | none => rw [hv] at h; exact Option.noConfusion h
  | some v =>
    rw [hv] at h
    dsimp only at h
    by_cases hb : p.x + v.1 < 0 ∨ p.x + v.1 > width ∨
        p.y + v.2 < 0 ∨ p.y + v.2 > height ∨ p.life ≤ 0
    · rw [if_pos hb] at h
      by_cases ht : config.interactionMode = InteractionMode.trail ∧
          hand.detected = true
      · rw [if_pos ht] at h
        simp only [Option.some.injEq] at h
        subst h
        exact ⟨rfl, rfl, rfl, rfl⟩
      · rw [if_neg ht] at h
        simp only [Option.some.injEq] at h
        subst h
        exact ⟨rfl, rfl, rfl, rfl⟩
    · rw [if_neg hb] at h
      simp only [Option.some.injEq] at h
      subst h
      exact ⟨rfl, rfl, rfl, rfl⟩

/-- Witness for C7 at a concrete update. -/
theorem update_preserves_size_color_witness :
    pW'.size = pW.size ∧ pW'.color = pW.color ∧
    pW'.baseX = pW.baseX ∧ pW'.baseY = pW.baseY :=
  update_preserves_size_color pW pW' 100 100 cfgBase handOff 0 0 0 0
    pW_update_eval

/-- C10: `life` equals 1 after construction, and any `update` of a particle
with `life = 1` leaves it 1 (the respawn branches set it to 1, the normal
branch does not touch it); consequently the `life ≤ 0` disjunct of the
respawn condition never holds for such a particle. -/
theorem life_invariant :
    (∀ (width height : ℝ) (config : ParticleConfig) (r1 r2 r3 r4 r5 r6 : ℝ),
      (Particle.init width height config r1 r2 r3 r4 r5 r6).life = 1) ∧
    (∀ (p p' : Particle) (width height : ℝ) (config : ParticleConfig)
        (hand : HandPosition) (r1 r2 r3 r4 : ℝ),
      p.life = 1 →
      p.update width height config hand r1 r2 r3 r4 = some p' →
      p'.life = 1 ∧ ¬ p.life ≤ 0) := by
  constructor
  · intro width height config r1 r2 r3 r4 r5 r6
    rfl
  · intro p p' width height config hand r1 r2 r3 r4 hlife h
    refine ⟨?_, by rw [hlife]; norm_num⟩
    unfold Particle.update at h
    cases hv : stepVelocity p width height config hand with
    | none => rw [hv] at h; exact Option.noConfusion h
    | some v =>
      rw [hv] at h
      dsimp only at h
      by_cases hb : p.x + v.1 < 0 ∨ p.x + v.1 > width ∨
          p.y + v.2 < 0 ∨ p.y + v.2 > height ∨ p.life ≤ 0
      · rw [if_pos hb] at h
        by_cases ht : config.interactionMode = InteractionMode.trail ∧
            hand.detected = true
        · rw [if_pos ht] at h
          simp only [Option.some.injEq] at h
          subst h
          rfl
        · rw [if_neg ht] at h
          simp only [Option.some.injEq] at h
          subst h
          rfl
      · rw [if_neg hb] at h
        simp only [Option.some.injEq] at h
        subst h
        exact hlife

/-- Witness for C10 at a concrete construction and a concrete update. -/
theorem life_invariant_witness :
    (Particle.init 100 100 cfgBase 0 0 0 0 0 0).life = 1 ∧
    (pW'.life = 1 ∧ ¬ pW.life ≤ 0) :=
  ⟨life_invariant.1 100 100 cfgBase 0 0 0 0 0 0,
   life_invariant.2 pW pW' 100 100 cfgBase handOff 0 0 0 0 rfl pW_update_eval⟩

/-- A particle at rest inside the canvas, with full life, under zero gravity,
friction 1 and no detected hand, is a fixed point of `update`. -/
theorem update_fixed (p : Particle) (width height : ℝ)
    (config : ParticleConfig) (hand : HandPosition) (r1 r2 r3 r4 : ℝ)
    (hg : config.gravity = 0) (hf : config.friction = 1)
    (hdet : hand.detected = false)
    (hvx : p.vx = 0) (hvy : p.vy = 0)
    (hx0 : 0 ≤ p.x) (hx1 : p.x ≤ width) (hy0 : 0 ≤ p.y) (hy1 : p.y ≤ height)
    (hlife : p.life = 1) :
    p.update width height config hand r1 r2 r3 r4 = some p := by
  have hres : forceFieldResolver p.x p.y width height hand config =
      some (0, 0) := by
    unfold forceFieldResolver
    rw [hdet]
    simp
  have hv : stepVelocity p width height config hand = some (0, 0) := by
    unfold stepVelocity
    rw [hres, hvx, hvy, hg, hf]
    norm_num
  unfold Particle.update
  rw [hv]
  dsimp only
  have hcond : ¬ (p.x + 0 < 0 ∨ p.x + 0 > width ∨ p.y + 0 < 0 ∨
      p.y + 0 > height ∨ p.life ≤ 0) := by
    push_neg
    refine ⟨by linarith, by linarith, by linarith, by linarith, ?_⟩
    rw [hlife]
    norm_num
  rw [if_neg hcond]
  congr 1
  ext
  all_goals simp [hvx, hvy]

/-- C9: under `gravity = 0`, `friction = 1`, `speed = 0` and an undetected
hand, a freshly constructed particle is left exactly unchanged by any number
of update calls, whatever random draws those frames use; in particular its
`(x, y)` position never moves. -/
theorem stasis (width height : ℝ) (config : ParticleConfig)
    (hand : HandPosition) (r1 r2 r3 r4 r5 r6 : ℝ)
    (rs : List (ℝ × ℝ × ℝ × ℝ))
    (hg : config.gravity = 0) (hf : config.friction = 1)
    (hs : config.speed = 0) (hdet : hand.detected = false)
    (hw : 0 ≤ width) (hh : 0 ≤ height)
    (hr1 : 0 ≤ r1) (hr1' : r1 ≤ 1) (hr2 : 0 ≤ r2) (hr2' : r2 ≤ 1) :
    updateIter width height config hand rs
        (Particle.init width height config r1 r2 r3 r4 r5 r6) =
      some (Particle.init width height config r1 r2 r3 r4 r5 r6) := by
  set p := Particle.init width height config r1 r2 r3 r4 r5 r6 with hp
  have hfix : ∀ a b c d : ℝ, p.update width height config hand a b c d =
      some p := by
    intro a b c d
    refine update_fixed p width height config hand a b c d hg hf hdet ?_ ?_
      ?_ ?_ ?_ ?_ ?_
    · rw [hp]; unfold Particle.init; rw [hs]; ring
    · rw [hp]; unfold Particle.init; rw [hs]; ring
    · rw [hp]; unfold Particle.init
      exact mul_nonneg hr1 hw
    · rw [hp]; unfold Particle.init
      exact mul_le_of_le_one_left hw hr1'
    · rw [hp]; unfold Particle.init
      exact mul_nonneg hr2 hh
    · rw [hp]; unfold Particle.init
      exact mul_le_of_le_one_left hh hr2'
    · rfl
  clear hp
  induction rs with
  | nil => rfl
  | cons r rest ih =>
      unfold updateIter
      rw [hfix r.1 r.2.1 r.2.2.1 r.2.2.2]
      exact ih

/-- The stasis configuration of the spec scenario: zero gravity and speed,
friction 1. -/
def cfgStasis : ParticleConfig :=
  { cfgBase with friction := 1, gravity := 0, speed := 0 }

/-- Witness for C9 at a concrete construction and one concrete frame. -/
theorem stasis_witness :
    updateIter 100 100 cfgStasis handOff [(1/2, 1/2, 1/2, 1/2)]
        (Particle.init 100 100 cfgStasis (1/2) (1/2) 0 0 0 0) =
      some (Particle.init 100 100 cfgStasis (1/2) (1/2) 0 0 0 0) :=
  stasis 100 100 cfgStasis handOff (1/2) (1/2) 0 0 0 0
    [(1/2, 1/2, 1/2, 1/2)] rfl rfl rfl rfl
    (by norm_num) (by norm_num) (by norm_num) (by norm_num)
    (by norm_num) (by norm_num)

/-- Trail configuration with a small interaction radius, for the respawn
counterexample. -/
def cfgTrail : ParticleConfig :=
  { cfgBase with
    interactionMode := InteractionMode.trail,
    interactionRadius := 10 }

/-- A detected hand at the left edge of the canvas (`x = 0`). -/
noncomputable def handEdge : HandPosition :=
  { x := 0, y := 1/2, detected := true, gesture := none }

/-- A particle about to exit the right canvas edge. -/
def pExit : Particle :=
  { x := 50, y := 50, vx := 200, vy := 0, size := 3, color := some "white",
    life := 1, baseX := 0, baseY := 0 }

/-- The state the Trail respawn produces for `pExit` with random draws
`(1/4, 1/2, 1/2, 1/2)`: x lands at −5, outside the canvas. -/
noncomputable def pExitRes : Particle :=
  { x := -5, y := 50, vx := 0, vy := 0, size := 3, color := some "white",
    life := 1, baseX := 0, baseY := 0 }

/-- C6 counterexample: in Trail mode with a detected hand at the left edge,
a particle exiting the canvas respawns at the hand position plus jitter,
which here is `x = 0 · 100 + (1/4 − 0.5) · 20 = −5` — NOT strictly inside
`[0, width)`: the respawn point is not clamped to the canvas. -/
theorem trail_respawn_outside_bounds :
    Particle.update pExit 100 100 cfgTrail handEdge (1/4) (1/2) (1/2) (1/2) =
      some pExitRes ∧ pExitRes.x < 0 := by
  have h2500 : Real.sqrt 2500 = 50 := by
    rw [show (2500:ℝ) = 50 ^ 2 by norm_num]
    exact Real.sqrt_sq (by norm_num)
  have hres : forceFieldResolver pExit.x pExit.y 100 100 handEdge cfgTrail =
      some (0, 0) := by
    unfold forceFieldResolver fieldDelta effectiveParams
    norm_num [handEdge, cfgTrail, cfgBase, pExit, h2500]
  have hv : stepVelocity pExit 100 100 cfgTrail handEdge = some (200, 0) := by
    unfold stepVelocity
    rw [hres]
    norm_num [pExit, cfgTrail, cfgBase]
  constructor
  · unfold Particle.update
    rw [hv]
    dsimp only
    rw [if_pos (by norm_num [pExit] :
      pExit.x + (200:ℝ) < 0 ∨ pExit.x + (200:ℝ) > 100 ∨
      pExit.y + (0:ℝ) < 0 ∨ pExit.y + (0:ℝ) > 100 ∨ pExit.life ≤ 0)]
    rw [if_pos (by exact ⟨rfl, rfl⟩ :
      cfgTrail.interactionMode = InteractionMode.trail ∧
      handEdge.detected = true)]
    simp only [Option.some.injEq]
    ext <;> norm_num [handEdge, cfgTrail, cfgBase, pExit, pExitRes]
  · norm_num [pExitRes]

/-- C6 amended: a particle whose post-integration position exits the canvas
respawns with `life = 1`; on the Trail-with-detected-hand path the new
position is the pointer pixel position plus independent jitter in
`[-10, 10]` per axis (it is NOT clamped, so it may lie outside the canvas
when the pointer is within 10 px of an edge); on the default path the new
position is uniform over `[0, width) × [0, height)`. -/
theorem respawn_policy (p : Particle) (width height : ℝ)
    (config : ParticleConfig) (hand : HandPosition)
    (r1 r2 r3 r4 vx' vy' : ℝ)
    (hv : stepVelocity p width height config hand = some (vx', vy'))
    (hexit : p.x + vx' < 0 ∨ p.x + vx' > width ∨
      p.y + vy' < 0 ∨ p.y + vy' > height)
    (hr1 : 0 ≤ r1) (hr1' : r1 < 1) (hr2 : 0 ≤ r2) (hr2' : r2 < 1)
    (hw : 0 < width) (hh : 0 < height) :
    ∃ p', p.update width height config hand r1 r2 r3 r4 = some p' ∧
      p'.life = 1 ∧
      ((config.interactionMode = InteractionMode.trail ∧
          hand.detected = true) →
        p'.x = hand.x * width + (r1 - 0.5) * 20 ∧
        p'.y = hand.y * height + (r2 - 0.5) * 20 ∧
        |p'.x - hand.x * width| ≤ 10 ∧ |p'.y - hand.y * height| ≤ 10) ∧
      (¬ (config.interactionMode = InteractionMode.trail ∧
          hand.detected = true) →
        p'.x = r1 * width ∧ p'.y = r2 * height ∧
        0 ≤ p'.x ∧ p'.x < width ∧ 0 ≤ p'.y ∧ p'.y < height) := by
  have hcond : p.x + vx' < 0 ∨ p.x + vx' > width ∨ p.y + vy' < 0 ∨
      p.y + vy' > height ∨ p.life ≤ 0 := by
    rcases hexit with h | h | h | h
    · exact Or.inl h
    · exact Or.inr (Or.inl h)
    · exact Or.inr (Or.inr (Or.inl h))
    · exact Or.inr (Or.inr (Or.inr (Or.inl h)))
  unfold Particle.update
  rw [hv]
  dsimp only
  rw [if_pos hcond]
  by_cases ht : config.interactionMode = InteractionMode.trail ∧
      hand.detected = true
  · rw [if_pos ht]
    refine ⟨_, rfl, rfl, fun _ => ⟨rfl, rfl, ?_, ?_⟩,
      fun hn => absurd ht hn⟩
    · show |hand.x * width + (r1 - 0.5) * 20 - hand.x * width| ≤ 10
      rw [show hand.x * width + (r1 - 0.5) * 20 - hand.x * width =
        (r1 - 0.5) * 20 by ring, abs_le]
      constructor <;> nlinarith
    · show |hand.y * height + (r2 - 0.5) * 20 - hand.y * height| ≤ 10
      rw [show hand.y * height + (r2 - 0.5) * 20 - hand.y * height =
        (r2 - 0.5) * 20 by ring, abs_le]
      constructor <;> nlinarith
  · rw [if_neg ht]
    refine ⟨_, rfl, rfl, fun hc => absurd hc ht,
      fun _ => ⟨rfl, rfl, ?_, ?_, ?_, ?_⟩⟩
    · exact mul_nonneg hr1 (le_of_lt hw)
    · show r1 * width < width
      nlinarith
    · exact mul_nonneg hr2 (le_of_lt hh)
    · show r2 * height < height
      nlinarith

/-- Witness for C6 (amended) at a concrete exiting particle on the default
(non-Trail) respawn path: the respawn point is inside the canvas and life
is reset to 1. -/
theorem respawn_policy_witness :
    ∃ p', Particle.update pExit 100 100 cfgBase handOff
        (1/4) (1/2) (1/2) (1/2) = some p' ∧
      p'.life = 1 ∧ 0 ≤ p'.x ∧ p'.x < 100 ∧ 0 ≤ p'.y ∧ p'.y < 100 := by
  have hv : stepVelocity pExit 100 100 cfgBase handOff = some (200, 0) := by
    unfold stepVelocity forceFieldResolver
    norm_num [handOff, pExit, cfgBase]
  obtain ⟨p', hup, hlife, _, hrest⟩ := respawn_policy pExit 100 100 cfgBase
    handOff (1/4) (1/2) (1/2) (1/2) 200 0 hv
    (by norm_num [pExit]) (by norm_num) (by norm_num) (by norm_num)
    (by norm_num) (by norm_num) (by norm_num)
  have hr := hrest (by simp [cfgBase])
  exact ⟨p', hup, hlife, hr.2.2.1, hr.2.2.2.1, hr.2.2.2.2.1, hr.2.2.2.2.2⟩

/-- A configuration with an empty colour palette. -/
def cfgNoColors : ParticleConfig := { cfgBase with colors := [] }

/-- A configuration with an inverted size range (`minSize > maxSize`). -/
def cfgInvSize : ParticleConfig := { cfgBase with minSize := 10, maxSize := 2 }

/-- C8 counterexample: constructing a particle under an empty palette is not
rejected — the constructor is total and produces a particle whose colour is
`undefined` (JS out-of-bounds indexing), modelled as `none`. -/
theorem init_empty_colors_degenerate :
    (Particle.init 100 100 cfgNoColors
      (1/2) (1/2) (1/2) (1/2) (1/2) (1/2)).color = none := by
  unfold Particle.init
  simp [cfgNoColors, cfgBase]

/-- C8 amended: construction never fails fast.  With an empty palette the
created particle's colour is `undefined`; with `minSize > maxSize` the
created particle's size lies in `(maxSize, minSize]` — outside the
(empty) range `[minSize, maxSize]`. -/
theorem init_no_validation (width height : ℝ) (config : ParticleConfig)
    (r1 r2 r3 r4 r5 r6 : ℝ) (hr5 : 0 ≤ r5) (hr5' : r5 < 1) :
    (config.colors = [] →
      (Particle.init width height config r1 r2 r3 r4 r5 r6).color = none) ∧
    (config.maxSize < config.minSize →
      (Particle.init width height config r1 r2 r3 r4 r5 r6).size ≤
        config.minSize ∧
      config.maxSize <
        (Particle.init width height config r1 r2 r3 r4 r5 r6).size) := by
  constructor
  · intro hc
    unfold Particle.init
    simp [hc]
  · intro hs
    unfold Particle.init
    dsimp only
    constructor
    · nlinarith
    · nlinarith

/-- Witness for C8 (amended) at a concrete inverted-size configuration:
`minSize = 10`, `maxSize = 2`, `r5 = 1/2` gives size 6 ∉ [10, 2]. -/
theorem init_no_validation_witness :
    (Particle.init 100 100 cfgInvSize 0 0 0 0 (1/2) 0).size ≤
      cfgInvSize.minSize ∧
    cfgInvSize.maxSize < (Particle.init 100 100 cfgInvSize 0 0 0 0 (1/2) 0).size :=
  (init_no_validation 100 100 cfgInvSize 0 0 0 0 (1/2) 0
    (by norm_num) (by norm_num)).2 (by norm_num [cfgInvSize, cfgBase])
